import Mathlib

/-!
Verification of the reliable event-delivery subsystem of the
`typebot-conect` repository (bot_gesto: worker.py, fb_google.py, utils.py,
db.py) against its natural-language specification.

The Python code is shallowly embedded: JSON / Python values decoded from a
stream entry's payload are modelled by the inductive type `PyVal` together
with Python's truthiness; dictionaries are association lists with Python's
`{**old, **new}` merge semantics; the HTTP layer is modelled by an abstract
environment assigning an outcome (status code + body, or network error) to
every POST attempt; `hashlib.sha256(...).hexdigest()` is modelled as an
explicit function parameter (every property proved below holds for an
arbitrary digest function, the underlying digest-input string being tracked
explicitly); wall-clock reads are explicit parameters.  Numbers are
modelled as integers (`Int`); none of the claims under scrutiny exercises
fractional values.
-/

/-- A decoded JSON / Python value (`json.loads` result).  Numbers are
restricted to integers; no claim exercises fractional values. -/
inductive PyVal where
  | null : PyVal
  | bool : Bool → PyVal
  | num : Int → PyVal
  | str : String → PyVal
  | arr : List PyVal → PyVal
  | obj : List (String × PyVal) → PyVal

/-- Python truthiness of a value (`bool(v)`): `None`, `False`, `0`, `""`,
`[]` and `{}` are falsy, everything else truthy. -/
def truthy : PyVal → Bool
  | .null => false
  | .bool b => b
  | .num n => decide (n ≠ 0)
  | .str s => decide (s ≠ "")
  | .arr [] => false
  | .arr (_ :: _) => true
  | .obj [] => false
  | .obj (_ :: _) => true

/-- Truthiness of an optional value; `none` stands for Python's `None`. -/
def optTruthy : Option PyVal → Bool
  | none => false
  | some v => truthy v

/-- Dictionary lookup (first binding wins, as in a Python `dict` where keys
are unique). -/
def dlookup (k : String) : List (String × PyVal) → Option PyVal
  | [] => none
  | kv :: rest => if kv.1 = k then some kv.2 else dlookup k rest

/-- `a.orElse b` on optional values, written out so statements stay
first-order. -/
def ofirst (a b : Option PyVal) : Option PyVal :=
  match a with
  | some v => some v
  | none => b

/-- Python's `{**old, **new}` (equivalently `old.copy(); .update(new)`):
keys of `old` keep their position, values being overwritten by `new` where
present; keys only in `new` are appended in order. -/
def dmerge (old new : List (String × PyVal)) : List (String × PyVal) :=
  old.map (fun kv => (kv.1, (dlookup kv.1 new).getD kv.2)) ++
    new.filter (fun kv => (dlookup kv.1 old).isNone)

/-- Python's `d[k] = v` on a copied dict: update in place or append. -/
def dset (d : List (String × PyVal)) (k : String) (v : PyVal) :
    List (String × PyVal) :=
  dmerge d [(k, v)]

/-- `data.get(k)` on a decoded payload: `None` when the key is missing or
the value is not a dict.  (In every claim the payload reaching this point
is a dict.) -/
def pyGetV (d : PyVal) (k : String) : PyVal :=
  match d with
  | .obj kvs => (dlookup k kvs).getD .null
  | _ => .null

/-- `lead.get(k, default)` on an association-list dict. -/
def pyGetD (kvs : List (String × PyVal)) (k : String) (dflt : PyVal) : PyVal :=
  (dlookup k kvs).getD dflt

/-- Python's `a or b`. -/
def pyOr (a b : PyVal) : PyVal :=
  if truthy a then a else b

/-- View a value as a string.  Non-string values in string position would
raise `AttributeError`/`TypeError` in the Python code (crashing the task);
such payloads are outside the scope of every claim and are mapped to `""`. -/
def asStr : PyVal → String
  | .str s => s
  | _ => ""

/-- View a value as a dict when it is one. -/
def asObj : PyVal → Option (List (String × PyVal))
  | .obj kvs => some kvs
  | _ => none

/-- Python's `str(v)`.  Container values never reach `str` in any claim;
they are rendered by fixed placeholders (only their truthiness matters). -/
def pyStr : PyVal → String
  | .null => "None"
  | .bool true => "True"
  | .bool false => "False"
  | .num n => Int.repr n
  | .str s => s
  | .arr _ => "<list>"
  | .obj _ => "<dict>"

-- ==========================================================================
-- utils.py
-- ==========================================================================

/-- Python's `s.lower()` (ASCII case folding), written over the character
list so that it is structurally recursive (the library `String.toLower` is
defined by well-founded recursion and does not evaluate inside proofs). -/
def strLower (s : String) : String :=
  ⟨s.data.map Char.toLower⟩

/-- Python's `s.strip()`: drop leading and trailing whitespace. -/
def strTrim (s : String) : String :=
  ⟨((s.data.dropWhile Char.isWhitespace).reverse.dropWhile
      Char.isWhitespace).reverse⟩

/-- `utils._norm`: `(s or "").strip().lower()` on a string already in hand. -/
def normStr (s : String) : String :=
  strLower (strTrim s)

/-- `"|".join(keys)` (Python `str.join` semantics). -/
def pyJoin (sep : String) : List String → String
  | [] => ""
  | [x] => x
  | x :: y :: xs => x ++ sep ++ pyJoin sep (y :: xs)

/-- The identity keys read from the lead dict by `build_event_id`, in
source order. -/
def idFieldKeys : List String :=
  ["telegram_id", "external_id", "click_id", "fbp", "fbc",
   "gclid", "gbraid", "wbraid"]

/-- One normalized identity component:
`_norm(str(lead.get(k) or ""))`. -/
def idField (lead : List (String × PyVal)) (k : String) : String :=
  normStr (pyStr (pyOr (pyGetD lead k .null) (.str "")))

/-- The full key list concatenated by `build_event_id` before hashing:
normalized event name, the eight identity fields, `str(event_time)` and the
salt. -/
def event_id_keys (salt event_name : String) (lead : List (String × PyVal))
    (event_time : Int) : List String :=
  [normStr event_name,
   idField lead "telegram_id",
   idField lead "external_id",
   idField lead "click_id",
   idField lead "fbp",
   idField lead "fbc",
   idField lead "gclid",
   idField lead "gbraid",
   idField lead "wbraid",
   Int.repr event_time,
   salt]

/-- The digest input of `utils.build_event_id`: `"|".join(keys)`. -/
def build_event_id_pre (salt event_name : String)
    (lead : List (String × PyVal)) (event_time : Int) : String :=
  pyJoin "|" (event_id_keys salt event_name lead event_time)

/-- `utils.build_event_id`, with `hashlib.sha256(...).hexdigest()` as an
explicit digest parameter (`EVENT_ID_SALT` is the `salt` parameter). -/
def build_event_id (sha256 : String → String) (salt event_name : String)
    (lead : List (String × PyVal)) (event_time : Int) : String :=
  sha256 (build_event_id_pre salt event_name lead event_time)

/-- `utils.now_ts()` and the computed window floor are explicit parameters:
`clamp_event_time` for current time `now` and window `W` days
(`FB_DROP_OLDER_THAN_DAYS`, default 7).  `min_ts = now − (W−1)·86400`. -/
def clamp_event_time (now W ts : Int) : Int :=
  if ts = 0 then now
  else max ts (now - (W - 1) * 86400)

/-- Routing configuration of `utils.py`: the (already lower-cased)
`SEND_LEAD_ON` / `SEND_SUBSCRIBE_ON` markers, defaults "botb" / "vip". -/
structure UtilsCfg where
  send_lead_on : String
  send_subscribe_on : String

/-- Python's `sub in s` substring test. -/
def strContains (sub s : String) : Bool :=
  decide (sub.toList <:+: s.toList)

/-- `utils.derive_event_from_route`. -/
def derive_event_from_route (u : UtilsCfg) (route_key : String) :
    Option String :=
  let r := strLower route_key
  if u.send_subscribe_on ≠ "" ∧ strContains u.send_subscribe_on r = true then
    some "Subscribe"
  else if u.send_lead_on ≠ "" ∧ strContains u.send_lead_on r = true then
    some "Lead"
  else
    none

/-- `utils.should_send_event` (`None` and `""` are falsy event names). -/
def should_send_event (event_name : Option String) : Bool :=
  match event_name with
  | none => false
  | some s =>
    if s = "" then false
    else decide (strLower s = "lead" ∨ strLower s = "subscribe")

-- ==========================================================================
-- fb_google.py
-- ==========================================================================

/-- Environment-derived configuration of `fb_google.py`. -/
structure Config where
  fb_pixel_id : String
  fb_access_token : String
  google_enabled : Bool
  fb_auto_subscribe_from_lead : Bool
  fb_retry_max : Nat
  ga_retry_max : Nat

/-- Outcome of one HTTP POST: an HTTP response (status code and body text)
or a raised network exception with its message. -/
inductive PostOutcome where
  | status : Nat → String → PostOutcome
  | netError : String → PostOutcome

/-- Result dict of one sink call, as built by `_post_with_retry` /
`send_event_fb` / `send_event_google`:
`ok` carries `{"ok": True, "status", "body", "platform", "event"}`;
`fail` carries `{"ok": False, "error", "platform", "event"}`;
`skip` carries `{"skip": True, "reason"}` (note: no `"ok"` key at all). -/
inductive SinkResult where
  | ok : Nat → String → String → Option String → SinkResult
  | fail : Option String → String → Option String → SinkResult
  | skip : String → SinkResult

/-- `isinstance(v, dict) and v.get("ok")` for a sink-result dict: true
exactly for the `ok` shape (a `skip` dict has no `"ok"` key, a `fail` dict
has `"ok": False`). -/
def sink_ok : SinkResult → Bool
  | .ok _ _ _ _ => true
  | _ => false

/-- `resp.status in (200, 201, 204)` — the only statuses the source
accepts as success. -/
def statusAccepted (c : Nat) : Bool :=
  c == 200 || c == 201 || c == 204

/-- The retry loop body of `_post_with_retry`: `attempt` is the current
index, `remaining` the attempts left, `lastErr` the last recorded error. -/
def postAux (outcome : Nat → PostOutcome) (platform : String)
    (et : Option String) (lastErr : Option String) (attempt : Nat) :
    Nat → SinkResult
  | 0 => .fail lastErr platform et
  | remaining + 1 =>
    match outcome attempt with
    | .status c body =>
      if statusAccepted c then .ok c body platform et
      else postAux outcome platform et (some (Nat.repr c ++ ": " ++ body))
        (attempt + 1) remaining
    | .netError msg =>
      postAux outcome platform et (some msg) (attempt + 1) remaining

/-- `fb_google._post_with_retry` (the backoff sleeps are timing-only and
not modelled): POSTs up to `retries` times, returning at the first
accepted status, else a failure with the last error. -/
def post_with_retry (outcome : Nat → PostOutcome) (retries : Nat)
    (platform : String) (et : Option String) : SinkResult :=
  postAux outcome platform et none 0 retries

/-- The HTTP environment: the outcome of attempt `i` of a POST for a given
platform ("facebook" / "ga4") and event name. -/
def NetEnv : Type :=
  String → String → Nat → PostOutcome

/-- `fb_google._ensure_user_data`: fills `fbp`/`fbc`/`ip`/`ua` into
`user_data` from top-level keys without overwriting existing entries. -/
def ensure_user_data (lead : List (String × PyVal)) :
    List (String × PyVal) :=
  let ud0 :=  (asObj (pyGetD lead "user_data" .null)).getD []
  let ud1 :=
    if (dlookup "fbp" ud0).isNone ∧ truthy (pyGetD lead "_fbp" .null) = true
    then dset ud0 "fbp" (pyGetD lead "_fbp" .null) else ud0
  let ud2 :=
    if (dlookup "fbc" ud1).isNone ∧ truthy (pyGetD lead "_fbc" .null) = true
    then dset ud1 "fbc" (pyGetD lead "_fbc" .null) else ud1
  let ud3 :=
    if (dlookup "ip" ud2).isNone ∧ truthy (pyGetD lead "ip" .null) = true
    then dset ud2 "ip" (pyGetD lead "ip" .null) else ud2
  let ua := pyOr (pyGetD lead "user_agent" .null) (pyGetD lead "ua" .null)
  if (dlookup "ua" ud3).isNone ∧ truthy ua = true
  then dset ud3 "ua" ua else ud3

/-- `fb_google._coerce_lead`: copy of the lead with `event_source_url`
defaulted, `user_data` normalized and the auto-subscribe suppression flag
defaulted to `False`. -/
def coerce_lead (lead : List (String × PyVal)) : List (String × PyVal) :=
  let out :=
    if truthy (pyGetD lead "event_source_url" .null) = false then
      dset lead "event_source_url"
        (pyOr (pyGetD lead "landing_url" .null) (pyGetD lead "src_url" .null))
    else lead
  let out2 := dset out "user_data" (.obj (ensure_user_data out))
  if (dlookup "__suppress_auto_subscribe" out2).isNone then
    dset out2 "__suppress_auto_subscribe" (.bool false)
  else out2

/-- `fb_google.send_event_fb`: skip when the pixel credentials are absent,
else POST (the payload built from `coerce_lead` does not influence the
modelled outcome, which the network environment determines). -/
def send_event_fb (cfg : Config) (net : NetEnv) (event_name : String)
    (_lead : List (String × PyVal)) : SinkResult :=
  if cfg.fb_pixel_id = "" ∨ cfg.fb_access_token = "" then
    .skip "fb creds missing"
  else
    post_with_retry (net "facebook" event_name) cfg.fb_retry_max
      "facebook" (some event_name)

/-- `fb_google.send_event_google`: skip when GA4 is not configured. -/
def send_event_google (cfg : Config) (net : NetEnv) (event_name : String)
    (_lead : List (String × PyVal)) : SinkResult :=
  if cfg.google_enabled = false then
    .skip "google disabled"
  else
    post_with_retry (net "ga4" event_name) cfg.ga_retry_max
      "ga4" (some event_name)

/-- The derived clone dispatched by the auto-subscribe block:
`clone = dict(lead); clone["subscribe_from_lead"] = True;
clone["__suppress_auto_subscribe"] = True`. -/
def autoSubClone (lead : List (String × PyVal)) : List (String × PyVal) :=
  dset (dset lead "subscribe_from_lead" (.bool true))
    "__suppress_auto_subscribe" (.bool true)

/-- The auto-subscribe guard of `send_event_to_all`:
`et.lower() == "lead" and FB_AUTO_SUBSCRIBE_FROM_LEAD and
not lead.get("__suppress_auto_subscribe", False)`. -/
def autoSubCond (cfg : Config) (et : String)
    (lead : List (String × PyVal)) : Bool :=
  (strLower et == "lead") && cfg.fb_auto_subscribe_from_lead &&
    !(truthy (pyGetD lead "__suppress_auto_subscribe" (.bool false)))

/-- Result of one fan-out: the `results` dict in insertion order, plus the
clones dispatched by the auto-subscribe block (each clone is sent as one
`Subscribe` event to every configured sink). -/
structure FanoutResult where
  results : List (String × SinkResult)
  chainedSubscribes : List (List (String × PyVal))

/-- `fb_google.send_event_to_all`: Facebook always, GA4 when enabled, then
the optional auto-subscribe dispatch of a derived `Subscribe` clone. -/
def send_event_to_all (cfg : Config) (net : NetEnv)
    (lead : List (String × PyVal)) (et : String) : FanoutResult :=
  let base :=
    [("facebook", send_event_fb cfg net et lead)] ++
      (if cfg.google_enabled then
        [("google", send_event_google cfg net et lead)]
      else [])
  if autoSubCond cfg et lead then
    { results := base ++
        [("facebook_subscribe",
          send_event_fb cfg net "Subscribe" (autoSubClone lead))] ++
        (if cfg.google_enabled then
          [("google_subscribe",
            send_event_google cfg net "Subscribe" (autoSubClone lead))]
        else []),
      chainedSubscribes := [autoSubClone lead] }
  else
    { results := base, chainedSubscribes := [] }

/-- `any(isinstance(v, dict) and v.get("ok") for v in results.values())`. -/
def anyOk (results : List (String × SinkResult)) : Bool :=
  results.any (fun p => sink_ok p.2)

/-- Return value of `send_event_with_retry`:
`{"status": "success", "results": …}` or `{"status": "failed", "event":…}`. -/
inductive RetryResult where
  | success : List (String × SinkResult) → RetryResult
  | failed : RetryResult

/-- The `while attempt < retries` loop of `send_event_with_retry`; the
whole fan-out of outer attempt `a` sees the network environment `net a`. -/
def swrAux (cfg : Config) (net : Nat → NetEnv) (et : String)
    (lead : List (String × PyVal)) (attempt : Nat) : Nat → RetryResult
  | 0 => .failed
  | remaining + 1 =>
    let rs := (send_event_to_all cfg (net attempt) lead et).results
    if anyOk rs then .success rs
    else swrAux cfg net et lead (attempt + 1) remaining

/-- `fb_google.send_event_with_retry` (default `retries=5`): repeat the
whole fan-out until some sink result is `ok`, else report failure. -/
def send_event_with_retry (cfg : Config) (net : Nat → NetEnv) (et : String)
    (lead : List (String × PyVal)) (retries : Nat) : RetryResult :=
  swrAux cfg net et lead 0 retries

-- ==========================================================================
-- db.py
-- ==========================================================================

/-- `float(custom.get("subscribe_count") or 0)`, integer-valued: values on
which Python's `float(...)` raises contribute nothing (the `except: pass`). -/
def floatAsInt : PyVal → Option Int
  | .num n => some n
  | .bool b => some (if b then 1 else 0)
  | .str s => s.toInt?
  | _ => none

/-- `db.compute_priority_score` (integer-valued; no claim exercises
fractional scores). -/
def compute_priority_score (ud custom : List (String × PyVal)) : Int :=
  (if truthy (pyGetD ud "username" .null) then 2 else 0) +
  (if truthy (pyGetD ud "first_name" .null) then 1 else 0) +
  (if truthy (pyGetD ud "premium" .null) then 3 else 0) +
  (if truthy (pyGetD ud "country" .null) then 1 else 0) +
  (if truthy (pyGetD ud "external_id" .null) then 2 else 0) +
  ((floatAsInt (pyOr (pyGetD custom "subscribe_count" .null) (.num 0))).getD 0) * 3

/-- The row of the `leads` table (`db.Lead`) for one `event_key`.
Timestamps are integers; `created_at` is set by the insert. -/
structure LeadRecord where
  event_key : PyVal
  telegram_id : String
  event_type : PyVal
  route_key : PyVal
  src_url : PyVal
  value : PyVal
  currency : PyVal
  user_data : List (String × PyVal)
  custom_data : List (String × PyVal)
  cookies : PyVal
  device_info : PyVal
  session_metadata : PyVal
  sent : Bool
  sent_pixels : List PyVal
  event_history : List PyVal
  created_at : Int
  last_attempt_at : Option Int
  last_sent_at : Option Int

/-- `normalized_ud = data.get("user_data") or {"telegram_id": telegram_id}`;
`none` marks the shapes on which the Python code raises (truthy non-dict). -/
def normalized_ud_of (data : PyVal) (tg : String) :
    Option (List (String × PyVal)) :=
  let udV := pyGetV data "user_data"
  if truthy udV then asObj udV else some [("telegram_id", .str tg)]

/-- `custom = data.get("custom_data") or {}`. -/
def custom_of (data : PyVal) : Option (List (String × PyVal)) :=
  let cV := pyGetV data "custom_data"
  if truthy cV then asObj cV else some []

/-- `custom["priority_score"] = compute_priority_score(normalized_ud,
custom)` — the effective custom-data update merged into the record. -/
def custom_with_score (data : PyVal) (tg : String) :
    Option (List (String × PyVal)) :=
  match normalized_ud_of data tg, custom_of data with
  | some ud, some c =>
    some (dset c "priority_score" (.num (compute_priority_score ud c)))
  | _, _ => none

/-- `enc_cookies`: present only when `data["cookies"]` is a non-empty dict;
values are encrypted by `_encrypt_value`, modelled by the parameter `encv`. -/
def enc_cookies_of (encv : PyVal → PyVal) (data : PyVal) :
    Option (List (String × PyVal)) :=
  match pyGetV data "cookies" with
  | .obj (kv :: rest) => some ((kv :: rest).map (fun p => (p.1, encv p.2)))
  | _ => none

/-- `event_record.get("status") == "success"` guarded by
`if event_record:` — the condition that marks the triggering attempt as a
success. -/
def er_success (event_record : Option PyVal) : Bool :=
  match event_record with
  | some e =>
    if truthy e then
      match e with
      | .obj ekvs =>
        match dlookup "status" ekvs with
        | some (.str s) => s == "success"
        | _ => false
      | _ => false
    else false
  | none => false

/-- `{**event_record, "ts": datetime.now(timezone.utc).isoformat()}`. -/
def hist_entry_of (ekvs : List (String × PyVal)) (nowIso : String) : PyVal :=
  .obj (dmerge ekvs [("ts", .str nowIso)])

/-- The history entries appended by this call: one entry when
`event_record` is truthy (raising — `none` — when it is a truthy
non-dict), nothing otherwise. -/
def history_add (event_record : Option PyVal) (nowIso : String) :
    Option (List PyVal) :=
  if optTruthy event_record then
    match event_record with
    | some (.obj ekvs) => some [hist_entry_of ekvs nowIso]
    | _ => none
  else some []

/-- `x or {}` for a stored JSONB column followed by a dict operation;
`none` marks truthy non-dict contents (on which Python raises). -/
def objOrEmpty (v : PyVal) : Option (List (String × PyVal)) :=
  if truthy v then asObj v else some []

/-- `data.get("session_metadata") or {}` as merged in the update branch. -/
def sm_data_of (data : PyVal) : Option (List (String × PyVal)) :=
  objOrEmpty (pyGetV data "session_metadata")

/-- `lead.cookies or {}`, evaluated only when `enc_cookies` is present. -/
def cookies_base_of (encCookies : Option (List (String × PyVal)))
    (r : LeadRecord) : Option (List (String × PyVal)) :=
  match encCookies with
  | some _ => objOrEmpty r.cookies
  | none => some []

/-- `db.save_lead` for the row keyed by `data["event_key"]`:
`existing` is the row found by the query (if any); the result pairs the
returned boolean with the resulting row.  Exceptions inside the session
(truthy non-dict shapes) roll back: `(false, existing)`.  The transient
`OperationalError` retry loop repeats the identical pure computation and
is not modelled. -/
def save_lead (encv : PyVal → PyVal) (now : Int) (nowIso : String)
    (data : PyVal) (event_record : Option PyVal)
    (existing : Option LeadRecord) : Bool × Option LeadRecord :=
  let ek := pyGetV data "event_key"
  let tg := pyStr (pyGetV data "telegram_id")
  if truthy ek = false ∨ tg = "" then (false, existing)
  else
    match normalized_ud_of data tg, custom_with_score data tg,
        history_add event_record nowIso with
    | some normalizedUd, some custom, some hist =>
      let encCookies := enc_cookies_of encv data
      let etype := pyOr (pyGetV data "event_type") (.str "Lead")
      match existing with
      | some r =>
        match objOrEmpty r.session_metadata, sm_data_of data,
            cookies_base_of encCookies r with
        | some rSm, some dSm, some rCk =>
          (true, some
            { event_key := r.event_key
              telegram_id := r.telegram_id
              event_type := etype
              route_key := r.route_key
              src_url := pyOr (pyGetV data "src_url") r.src_url
              value := r.value
              currency := pyOr (pyGetV data "currency") r.currency
              user_data := dmerge r.user_data normalizedUd
              custom_data := dmerge r.custom_data custom
              cookies :=
                match encCookies with
                | some enc => .obj (dmerge rCk enc)
                | none => r.cookies
              device_info := pyOr (pyGetV data "device_info") r.device_info
              session_metadata := .obj (dmerge rSm dSm)
              sent := if er_success event_record then true else r.sent
              sent_pixels := r.sent_pixels
              event_history := r.event_history ++ hist
              created_at := r.created_at
              last_attempt_at :=
                if optTruthy event_record ∧ er_success event_record = false
                then some now else r.last_attempt_at
              last_sent_at :=
                if er_success event_record then some now
                else r.last_sent_at })
        | _, _, _ => (false, existing)
      | none =>
        (true, some
          { event_key := ek
            telegram_id := tg
            event_type := etype
            route_key := pyGetV data "route_key"
            src_url := pyGetV data "src_url"
            value := pyGetV data "value"
            currency := pyGetV data "currency"
            user_data := normalizedUd
            custom_data := custom
            cookies :=
              match encCookies with
              | some enc => .obj enc
              | none => .null
            device_info := pyGetV data "device_info"
            session_metadata := pyGetV data "session_metadata"
            sent := er_success event_record
            sent_pixels := []
            event_history := hist
            created_at := now
            last_attempt_at :=
              if optTruthy event_record ∧ er_success event_record = false
              then some now else none
            last_sent_at :=
              if er_success event_record then some now else none })
    | _, _, _ => (false, existing)

-- ==========================================================================
-- worker.py
-- ==========================================================================

/-- `route_key = ld.get("route_key") or ld.get("link_key") or ""`. -/
def route_of (ld : PyVal) : String :=
  asStr (pyOr (pyGetV ld "route_key") (pyOr (pyGetV ld "link_key") (.str "")))

/-- `event or "unknown"`. -/
def orUnknown (e : Option String) : String :=
  match e with
  | some s => if s = "" then "unknown" else s
  | none => "unknown"

/-- Render an optional string as a Python value (`None` / `str`). -/
def optStrPy : Option String → PyVal
  | some s => .str s
  | none => .null

/-- A sink-result dict as the JSON-like value stored in the event record. -/
def sink_result_py : SinkResult → PyVal
  | .ok c body platform et =>
    .obj [("ok", .bool true), ("status", .num c), ("body", .str body),
          ("platform", .str platform), ("event", optStrPy et)]
  | .fail err platform et =>
    .obj [("ok", .bool false), ("error", optStrPy err),
          ("platform", .str platform), ("event", optStrPy et)]
  | .skip reason =>
    .obj [("skip", .bool true), ("reason", .str reason)]

/-- The dict `send_event_with_retry` returns:
`{"status": "success", "results": …}` or
`{"status": "failed", "event": event_type}`. -/
def retry_result_py (r : RetryResult) (et : String) : PyVal :=
  match r with
  | .success rs =>
    .obj [("status", .str "success"),
          ("results", .obj (rs.map (fun p => (p.1, sink_result_py p.2))))]
  | .failed => .obj [("status", .str "failed"), ("event", .str et)]

/-- What one `process_entry` call did: its return value
`(entry_id, success)` plus the `save_lead` calls (payload, event record)
and the `send_event_with_retry` calls (event, payload) it made. -/
structure ProcessResult where
  entry_id : String
  success : Bool
  saves : List (PyVal × Option PyVal)
  sends : List (String × PyVal)

/-- `worker.process_entry` as a function of the decode outcome of the
entry's payload (`parsed = none` models a `json.loads` failure; an absent
payload field decodes the default `"{}"` to the empty dict).  A truthy
non-dict payload raises `AttributeError` out of the task — never
acknowledged, no store call — modelled as `success := false` with no
effects. -/
def process_entry (cfg : Config) (net : Nat → NetEnv) (u : UtilsCfg)
    (retries : Nat) (entry_id : String) (parsed : Option PyVal) :
    ProcessResult :=
  match parsed with
  | none => ⟨entry_id, true, [], []⟩
  | some ld =>
    if truthy ld = false then ⟨entry_id, true, [], []⟩
    else
      match ld with
      | .obj kvs =>
        let event := derive_event_from_route u (route_of (.obj kvs))
        if should_send_event event = false then
          ⟨entry_id, true,
           [(.obj kvs,
             some (.obj [("event", .str (orUnknown event)),
                         ("status", .str "skipped")]))], []⟩
        else
          let ev := event.getD ""
          let results := send_event_with_retry cfg net ev kvs retries
          let succ := match results with
            | .success _ => true
            | .failed => false
          let record := PyVal.obj
            [("event", .str ev), ("entry_id", .str entry_id),
             ("results", retry_result_py results ev),
             ("status", .str (if succ then "success" else "failed"))]
          ⟨entry_id, succ, [(.obj kvs, some record)], [(ev, .obj kvs)]⟩
      | _ => ⟨entry_id, false, [], []⟩

/-- `worker._spawn_worker` acknowledges the entry exactly when
`process_entry` returned `success = true` (`if ok: _safe_ack(eid)`). -/
def worker_acks (cfg : Config) (net : Nat → NetEnv) (u : UtilsCfg)
    (retries : Nat) (entry_id : String) (parsed : Option PyVal) : Bool :=
  (process_entry cfg net u retries entry_id parsed).success

-- ==========================================================================
-- Dictionary lemmas
-- ==========================================================================

lemma dlookup_append (k : String) (a b : List (String × PyVal)) :
    dlookup k (a ++ b) = ofirst (dlookup k a) (dlookup k b) := by
  induction a with
  | nil => simp [dlookup, ofirst]
  | cons kv rest ih =>
    by_cases h : kv.1 = k
    · simp [dlookup, h, ofirst]
    · simp [dlookup, h, ih]

lemma dlookup_map_keys (k : String) (f : String → PyVal → PyVal) :
    ∀ (old : List (String × PyVal)),
    dlookup k (old.map (fun kv => (kv.1, f kv.1 kv.2))) =
      (dlookup k old).map (f k) := by
  intro old
  induction old with
  | nil => simp [dlookup]
  | cons kv rest ih =>
    obtain ⟨k0, v0⟩ := kv
    by_cases h : k0 = k
    · subst h; simp [dlookup]
    · simp [dlookup, h, ih]

lemma dlookup_filter_key (k : String) (q : String → Bool) :
    ∀ (l : List (String × PyVal)),
    dlookup k (l.filter (fun kv => q kv.1)) =
      if q k then dlookup k l else none := by
  intro l
  induction l with
  | nil => simp [dlookup]
  | cons kv rest ih =>
    obtain ⟨k0, v0⟩ := kv
    by_cases h : k0 = k
    · subst h
      cases hq : q k0
      · simp [List.filter_cons, hq, ih, dlookup]
      · simp [List.filter_cons, hq, dlookup, ih]
    · cases hq : q k0
      · simp [List.filter_cons, hq, ih, dlookup, h]
      · simp [List.filter_cons, hq, dlookup, h, ih]

lemma dlookup_dmerge (k : String) (old new : List (String × PyVal)) :
    dlookup k (dmerge old new) = ofirst (dlookup k new) (dlookup k old) := by
  unfold dmerge
  rw [dlookup_append,
    dlookup_map_keys k (fun k1 v => (dlookup k1 new).getD v) old,
    dlookup_filter_key k (fun k1 => (dlookup k1 old).isNone) new]
  cases h : dlookup k old <;> cases h2 : dlookup k new <;>
    simp [h, h2, ofirst]

lemma dlookup_dset_self (d : List (String × PyVal)) (k : String) (v : PyVal) :
    dlookup k (dset d k v) = some v := by
  unfold dset
  rw [dlookup_dmerge]
  simp [dlookup, ofirst]

lemma dlookup_dset_ne (d : List (String × PyVal)) (k k2 : String) (v : PyVal)
    (h : k ≠ k2) : dlookup k2 (dset d k v) = dlookup k2 d := by
  unfold dset
  rw [dlookup_dmerge]
  simp [dlookup, h, ofirst]

-- ==========================================================================
-- String / join lemmas
-- ==========================================================================

lemma str_append_cancel_left {s t u : String} (h : s ++ t = s ++ u) :
    t = u := by
  apply String.ext
  have hd := congrArg String.data h
  simp only [String.data_append] at hd
  exact List.append_cancel_left hd

lemma str_append_cancel_right {s t u : String} (h : s ++ u = t ++ u) :
    s = t := by
  apply String.ext
  have hd := congrArg String.data h
  simp only [String.data_append] at hd
  exact List.append_cancel_right hd

lemma pyJoin_cons (sep a : String) {l : List String} (h : l ≠ []) :
    pyJoin sep (a :: l) = a ++ sep ++ pyJoin sep l := by
  cases l with
  | nil => exact absurd rfl h
  | cons b m => rfl

lemma pyJoin_single_diff : ∀ (pre : List String) (x y : String)
    (post : List String), x ≠ y →
    pyJoin "|" (pre ++ x :: post) ≠ pyJoin "|" (pre ++ y :: post) := by
  intro pre
  induction pre with
  | nil =>
    intro x y post hxy
    cases post with
    | nil => simpa [pyJoin] using hxy
    | cons p ps =>
      intro he
      simp only [List.nil_append] at he
      rw [pyJoin_cons "|" x (by simp), pyJoin_cons "|" y (by simp)] at he
      exact hxy (str_append_cancel_right (str_append_cancel_right he))
  | cons a pre ih =>
    intro x y post hxy he
    simp only [List.cons_append] at he
    rw [pyJoin_cons "|" a (by simp), pyJoin_cons "|" a (by simp)] at he
    exact ih x y post hxy (str_append_cancel_left he)

-- ==========================================================================
-- Concrete instances used by witnesses
-- ==========================================================================

/-- A configuration with no sink credentials. -/
def cfg0 : Config := ⟨"", "", false, false, 3, 3⟩

/-- A network environment in which every POST raises. -/
def net0 : Nat → NetEnv := fun _ _ _ _ => .netError "conn"

/-- The default routing markers (`SEND_LEAD_ON=botb`, `SEND_SUBSCRIBE_ON=vip`). -/
def u0 : UtilsCfg := ⟨"botb", "vip"⟩

-- ==========================================================================
-- C8
-- ==========================================================================

/-- C8: for every integer timestamp `ts`, `clamp_event_time` never returns
a value earlier than `now − (W−1)` days (86400·(W−1) seconds, window
`W ≥ 1`, default 7); for `ts = 0` (the encoding of an absent timestamp) it
returns the current time, and otherwise a value no smaller than `ts`. -/
theorem clamp_event_time_spec (now W ts : Int) (h : 1 ≤ W) :
    now - (W - 1) * 86400 ≤ clamp_event_time now W ts ∧
    (ts = 0 → clamp_event_time now W ts = now) ∧
    (ts ≠ 0 → ts ≤ clamp_event_time now W ts) := by
  have hw : (0:Int) ≤ (W - 1) * 86400 := mul_nonneg (by linarith) (by norm_num)
  unfold clamp_event_time
  refine ⟨?_, fun h0 => by simp [h0], fun h0 => ?_⟩
  · split
    · linarith
    · exact le_max_right _ _
  · simp only [h0, if_false, if_neg h0]
    exact le_max_left _ _

/-- Witness for C8 at `now = 1000000`, `W = 7`, `ts = 5`. -/
theorem clamp_event_time_spec_witness :
    (1:Int) ≤ 7 ∧
    (1000000 - (7 - 1) * 86400 ≤ clamp_event_time 1000000 7 5 ∧
     ((5:Int) = 0 → clamp_event_time 1000000 7 5 = 1000000) ∧
     ((5:Int) ≠ 0 → (5:Int) ≤ clamp_event_time 1000000 7 5)) :=
  ⟨by norm_num, clamp_event_time_spec 1000000 7 5 (by norm_num)⟩

-- ==========================================================================
-- C4
-- ==========================================================================

/-- C4: an entry whose payload cannot be decoded as JSON
(`parsed = none`) is acknowledged immediately (`success = true`, so
`_spawn_worker` acks and the entry is never retried) and triggers no
`save_lead` call and no sink call. -/
theorem process_entry_malformed_payload (cfg : Config) (net : Nat → NetEnv)
    (u : UtilsCfg) (retries : Nat) (entry_id : String) :
    process_entry cfg net u retries entry_id none =
      ⟨entry_id, true, [], []⟩ ∧
    worker_acks cfg net u retries entry_id none = true :=
  ⟨rfl, rfl⟩

-- ==========================================================================
-- C10
-- ==========================================================================

/-- C10: a payload that decodes to a *falsy* JSON value — the empty object
(also the decode of the default `"{}"` used when the payload field is
absent), `null`, `0`, `false` or `""` — is treated exactly like a
malformed payload: acknowledged immediately, no store record, no sink
call, even though decoding succeeded. -/
theorem process_entry_falsy_payload (cfg : Config) (net : Nat → NetEnv)
    (u : UtilsCfg) (retries : Nat) (entry_id : String) (v : PyVal)
    (h : truthy v = false) :
    process_entry cfg net u retries entry_id (some v) =
      ⟨entry_id, true, [], []⟩ ∧
    worker_acks cfg net u retries entry_id (some v) = true ∧
    truthy (.obj []) = false ∧ truthy .null = false ∧
    truthy (.num 0) = false ∧ truthy (.bool false) = false ∧
    truthy (.str "") = false := by
  have h1 : process_entry cfg net u retries entry_id (some v) =
      ⟨entry_id, true, [], []⟩ := by
    simp [process_entry, h]
  exact ⟨h1, by simp [worker_acks, h1], rfl, rfl, by decide, rfl, by decide⟩

/-- Witness for C10 at the empty-object payload (decode of `"{}"`). -/
theorem process_entry_falsy_payload_witness :
    truthy (.obj []) = false ∧
    process_entry cfg0 net0 u0 3 "1-1" (some (.obj [])) =
      ⟨"1-1", true, [], []⟩ :=
  ⟨rfl, (process_entry_falsy_payload cfg0 net0 u0 3 "1-1" (.obj []) rfl).1⟩

-- ==========================================================================
-- C5
-- ==========================================================================

/-- C5: a decodable (truthy dict) payload whose route key maps to neither
Lead nor Subscribe is recorded with a `skipped` history entry (event
`"unknown"`), makes no sink call (`sends = []`), and is acknowledged
(`success = true`) — a terminal success state. -/
theorem process_entry_unroutable (cfg : Config) (net : Nat → NetEnv)
    (u : UtilsCfg) (retries : Nat) (entry_id : String)
    (kvs : List (String × PyVal)) (hk : kvs ≠ [])
    (hroute : derive_event_from_route u (route_of (.obj kvs)) = none) :
    process_entry cfg net u retries entry_id (some (.obj kvs)) =
      ⟨entry_id, true,
       [(.obj kvs, some (.obj [("event", .str "unknown"),
                               ("status", .str "skipped")]))], []⟩ ∧
    worker_acks cfg net u retries entry_id (some (.obj kvs)) = true ∧
    (process_entry cfg net u retries entry_id (some (.obj kvs))).sends
      = [] := by
  have htr : truthy (.obj kvs) = true := by
    cases kvs with
    | nil => exact absurd rfl hk
    | cons a l => rfl
  have h1 : process_entry cfg net u retries entry_id (some (.obj kvs)) =
      ⟨entry_id, true,
       [(.obj kvs, some (.obj [("event", .str "unknown"),
                               ("status", .str "skipped")]))], []⟩ := by
    simp [process_entry, htr, hroute, should_send_event, orUnknown]
  exact ⟨h1, by simp [worker_acks, h1], by simp [h1]⟩

/-- Witness for C5: route key "other" matches neither default marker. -/
theorem process_entry_unroutable_witness :
    process_entry cfg0 net0 u0 3 "1-2"
        (some (.obj [("route_key", PyVal.str "other")])) =
      ⟨"1-2", true,
       [(.obj [("route_key", PyVal.str "other")],
         some (.obj [("event", .str "unknown"),
                     ("status", .str "skipped")]))], []⟩ :=
  (process_entry_unroutable cfg0 net0 u0 3 "1-2"
    [("route_key", PyVal.str "other")] (by simp) (by decide)).1

-- ==========================================================================
-- C6
-- ==========================================================================

lemma postAux_ok_iff (outcome : Nat → PostOutcome) (platform : String)
    (et : Option String) :
    ∀ (n a : Nat) (le : Option String),
    sink_ok (postAux outcome platform et le a n) = true ↔
      ∃ i, i < n ∧ ∃ c body, outcome (a + i) = .status c body ∧
        statusAccepted c = true := by
  intro n
  induction n with
  | zero =>
    intro a le
    simp [postAux, sink_ok]
  | succ m ih =>
    intro a le
    constructor
    · intro h
      cases ho : outcome a with
      | status c body =>
        simp only [postAux, ho] at h
        by_cases hc : statusAccepted c
        · exact ⟨0, Nat.succ_pos m, c, body, by rw [Nat.add_zero]; exact ho, hc⟩
        · rw [if_neg (by simpa using hc)] at h
          obtain ⟨i, hi, c2, b2, hoc, hacc⟩ := (ih (a + 1) _).mp h
          exact ⟨i + 1, by omega, c2, b2,
            by rw [show a + (i + 1) = a + 1 + i by omega]; exact hoc, hacc⟩
      | netError msg =>
        simp only [postAux, ho] at h
        obtain ⟨i, hi, c2, b2, hoc, hacc⟩ := (ih (a + 1) _).mp h
        exact ⟨i + 1, by omega, c2, b2,
          by rw [show a + (i + 1) = a + 1 + i by omega]; exact hoc, hacc⟩
    · rintro ⟨i, hi, c, body, ho, hacc⟩
      cases ho2 : outcome a with
      | status c2 b2 =>
        simp only [postAux, ho2]
        by_cases hc2 : statusAccepted c2
        · simp [hc2, sink_ok]
        · rw [if_neg (by simpa using hc2)]
          cases i with
          | zero =>
            rw [Nat.add_zero] at ho
            rw [ho] at ho2
            injection ho2 with hcc _
            exact absurd (hcc ▸ hacc) (by simpa using hc2)
          | succ j =>
            refine (ih (a + 1) _).mpr ⟨j, by omega, c, body, ?_, hacc⟩
            rw [show a + 1 + j = a + (j + 1) by omega]
            exact ho
      | netError msg =>
        simp only [postAux, ho2]
        cases i with
        | zero =>
          rw [Nat.add_zero] at ho
          rw [ho] at ho2
          exact absurd ho2 (by simp)
        | succ j =>
          refine (ih (a + 1) _).mpr ⟨j, by omega, c, body, ?_, hacc⟩
          rw [show a + 1 + j = a + (j + 1) by omega]
          exact ho

/-- C6 amended: one sink call reports `ok = true` exactly when some
attempt receives status 200, 201 or 204 — not an arbitrary 2xx status. -/
theorem post_with_retry_accepts_200_201_204 (outcome : Nat → PostOutcome)
    (retries : Nat) (platform : String) (et : Option String) :
    sink_ok (post_with_retry outcome retries platform et) = true ↔
      ∃ i, i < retries ∧ ∃ c body, outcome i = .status c body ∧
        (c = 200 ∨ c = 201 ∨ c = 204) := by
  have hacc : ∀ c, statusAccepted c = true ↔ (c = 200 ∨ c = 201 ∨ c = 204) := by
    intro c
    simp [statusAccepted, Bool.or_eq_true, beq_iff_eq, or_assoc]
  unfold post_with_retry
  rw [postAux_ok_iff]
  simp only [Nat.zero_add, hacc]

/-- C6 counterexample: status 202 is a 2xx status, yet the attempt is not
classified as a success (the source accepts only 200, 201 and 204). -/
theorem post_with_retry_202_not_ok :
    sink_ok (post_with_retry (fun _ => .status 202 "Accepted") 3 "facebook"
      (some "Lead")) = false ∧ 200 ≤ 202 ∧ 202 ≤ 299 :=
  ⟨rfl, by norm_num, by norm_num⟩

-- ==========================================================================
-- C1
-- ==========================================================================

lemma swrAux_failed_iff (cfg : Config) (net : Nat → NetEnv) (et : String)
    (lead : List (String × PyVal)) :
    ∀ (n a : Nat), swrAux cfg net et lead a n = .failed ↔
      ∀ i, i < n →
        anyOk (send_event_to_all cfg (net (a + i)) lead et).results
          = false := by
  intro n
  induction n with
  | zero =>
    intro a
    simp [swrAux]
  | succ m ih =>
    intro a
    simp only [swrAux]
    by_cases h : anyOk (send_event_to_all cfg (net a) lead et).results = true
    · rw [if_pos h]
      constructor
      · intro hcontra
        exact absurd hcontra (by simp)
      · intro hall
        have h0 := hall 0 (Nat.succ_pos m)
        rw [Nat.add_zero] at h0
        rw [h0] at h
        exact absurd h (by simp)
    · rw [if_neg h, ih (a + 1)]
      constructor
      · intro hall i hi
        cases i with
        | zero =>
          rw [Nat.add_zero]
          simpa using h
        | succ j =>
          have := hall j (by omega)
          rw [show a + 1 + j = a + (j + 1) by omega] at this
          exact this
      · intro hall j hj
        have := hall (j + 1) (by omega)
        rw [show a + (j + 1) = a + 1 + j by omega] at this
        exact this

lemma swrAux_success_ex (cfg : Config) (net : Nat → NetEnv) (et : String)
    (lead : List (String × PyVal)) :
    ∀ (n a : Nat) (rs : List (String × SinkResult)),
      swrAux cfg net et lead a n = .success rs →
      ∃ i, i < n ∧
        rs = (send_event_to_all cfg (net (a + i)) lead et).results ∧
        anyOk rs = true := by
  intro n
  induction n with
  | zero =>
    intro a rs h
    simp [swrAux] at h
  | succ m ih =>
    intro a rs h
    simp only [swrAux] at h
    by_cases hok : anyOk (send_event_to_all cfg (net a) lead et).results = true
    · rw [if_pos hok] at h
      injection h with h2
      refine ⟨0, Nat.succ_pos m, ?_, ?_⟩
      · rw [Nat.add_zero]
        exact h2.symm
      · rw [h2] at hok
        exact hok
    · rw [if_neg hok] at h
      obtain ⟨i, hi, hrs, ha⟩ := ih (a + 1) rs h
      refine ⟨i + 1, by omega, ?_, ha⟩
      rw [show a + (i + 1) = a + 1 + i by omega]
      exact hrs

/-- C1: the delivery wrapper reports `"failed"` exactly when in every
outer attempt no sink result has `ok = true`, and reports `"success"`
exactly when some attempt's fan-out contains at least one `ok` sink result
(`anyOk` being `any(isinstance(v, dict) and v.get("ok") …)`). -/
theorem send_event_with_retry_fanout_policy (cfg : Config)
    (net : Nat → NetEnv) (et : String) (lead : List (String × PyVal))
    (retries : Nat) :
    (send_event_with_retry cfg net et lead retries = .failed ↔
      ∀ a, a < retries →
        anyOk (send_event_to_all cfg (net a) lead et).results = false) ∧
    ((∃ rs, send_event_with_retry cfg net et lead retries = .success rs) ↔
      ∃ a, a < retries ∧
        anyOk (send_event_to_all cfg (net a) lead et).results = true) ∧
    (∀ rs : List (String × SinkResult),
      anyOk rs = true ↔ ∃ p ∈ rs, sink_ok p.2 = true) := by
  refine ⟨?_, ⟨?_, ?_⟩, ?_⟩
  · have h := swrAux_failed_iff cfg net et lead retries 0
    simpa [send_event_with_retry] using h
  · rintro ⟨rs, h⟩
    obtain ⟨i, hi, hrs, ha⟩ :=
      swrAux_success_ex cfg net et lead retries 0 rs h
    rw [Nat.zero_add] at hrs
    exact ⟨i, hi, by rw [← hrs]; exact ha⟩
  · rintro ⟨a, ha, hok⟩
    cases h : send_event_with_retry cfg net et lead retries with
    | success rs => exact ⟨rs, rfl⟩
    | failed =>
      have hall := (swrAux_failed_iff cfg net et lead retries 0).mp h
      have := hall a ha
      rw [Nat.zero_add] at this
      rw [this] at hok
      exact absurd hok (by simp)
  · intro rs
    simp [anyOk, List.any_eq_true]

-- ==========================================================================
-- C9
-- ==========================================================================

/-- C9: one fan-out dispatches exactly one derived `Subscribe` clone — no
more, no less — exactly when the event type is (case-insensitively) Lead,
auto-subscribe is enabled and the lead is not already tagged; the clone
carries `__suppress_auto_subscribe = True`, so feeding it back through the
same path (any configuration, any event type) never dispatches a further
chained clone; and the results dict gains exactly the `facebook_subscribe`
(and, when GA4 is enabled, `google_subscribe`) entries for the clone. -/
theorem send_event_to_all_auto_subscribe (cfg : Config) (net : NetEnv)
    (lead : List (String × PyVal)) (et : String) :
    ((send_event_to_all cfg net lead et).chainedSubscribes =
      if autoSubCond cfg et lead then [autoSubClone lead] else []) ∧
    (autoSubCond cfg et lead = true ↔
      (strLower et = "lead" ∧ cfg.fb_auto_subscribe_from_lead = true ∧
       truthy (pyGetD lead "__suppress_auto_subscribe" (.bool false))
         = false)) ∧
    truthy (pyGetD (autoSubClone lead) "__suppress_auto_subscribe"
      (.bool false)) = true ∧
    (∀ (cfg2 : Config) (net2 : NetEnv) (et2 : String),
      (send_event_to_all cfg2 net2 (autoSubClone lead) et2).chainedSubscribes
        = []) ∧
    ((send_event_to_all cfg net lead et).results =
      ([("facebook", send_event_fb cfg net et lead)] ++
        (if cfg.google_enabled then
          [("google", send_event_google cfg net et lead)] else [])) ++
      (if autoSubCond cfg et lead then
        [("facebook_subscribe",
          send_event_fb cfg net "Subscribe" (autoSubClone lead))] ++
        (if cfg.google_enabled then
          [("google_subscribe",
            send_event_google cfg net "Subscribe" (autoSubClone lead))]
        else [])
      else [])) := by
  have hclone : truthy (pyGetD (autoSubClone lead)
      "__suppress_auto_subscribe" (.bool false)) = true := by
    unfold autoSubClone pyGetD
    rw [dlookup_dset_self]
    rfl
  refine ⟨?_, ?_, hclone, ?_, ?_⟩
  · unfold send_event_to_all
    by_cases h : autoSubCond cfg et lead <;> simp [h]
  · simp [autoSubCond, Bool.and_eq_true, beq_iff_eq, Bool.not_eq_true',
      and_assoc]
  · intro cfg2 net2 et2
    have hcond : autoSubCond cfg2 et2 (autoSubClone lead) = false := by
      unfold autoSubCond
      rw [hclone]
      simp
    unfold send_event_to_all
    rw [hcond]
    simp
  · unfold send_event_to_all
    by_cases h : autoSubCond cfg et lead <;> simp [h]

-- ==========================================================================
-- save_lead lemmas
-- ==========================================================================

/-- `sent` flag of the row found for the event key (`false` when no row
exists yet). -/
def sentOf : Option LeadRecord → Bool
  | none => false
  | some r => r.sent

/-- Event history of the row found for the event key. -/
def histOf : Option LeadRecord → List PyVal
  | none => []
  | some r => r.event_history

lemma save_lead_shape (encv : PyVal → PyVal) (now : Int) (iso : String)
    (data : PyVal) (er : Option PyVal) (ex : Option LeadRecord)
    (b : Bool) (res : Option LeadRecord)
    (hsave : save_lead encv now iso data er ex = (b, res)) :
    (b = false ∧ res = ex) ∨
    (b = true ∧ ∃ r', res = some r' ∧
      r'.sent = (sentOf ex || er_success er) ∧
      r'.event_history = histOf ex ++ (history_add er iso).getD []) := by
  by_cases h1 : truthy (pyGetV data "event_key") = false ∨
      pyStr (pyGetV data "telegram_id") = ""
  · simp only [save_lead, h1, if_true, Prod.mk.injEq] at hsave
    exact Or.inl ⟨hsave.1.symm, hsave.2.symm⟩
  cases hnud : normalized_ud_of data (pyStr (pyGetV data "telegram_id")) with
  | none =>
    simp only [save_lead, h1, if_false, hnud, Prod.mk.injEq] at hsave
    exact Or.inl ⟨hsave.1.symm, hsave.2.symm⟩
  | some nud =>
  cases hcust : custom_with_score data (pyStr (pyGetV data "telegram_id")) with
  | none =>
    simp only [save_lead, h1, if_false, hnud, hcust, Prod.mk.injEq] at hsave
    exact Or.inl ⟨hsave.1.symm, hsave.2.symm⟩
  | some cust =>
  cases hhist : history_add er iso with
  | none =>
    simp only [save_lead, h1, if_false, hnud, hcust, hhist,
      Prod.mk.injEq] at hsave
    exact Or.inl ⟨hsave.1.symm, hsave.2.symm⟩
  | some hist =>
  cases ex with
  | none =>
    simp only [save_lead, h1, if_false, hnud, hcust, hhist,
      Prod.mk.injEq] at hsave
    obtain ⟨hb, hres⟩ := hsave
    refine Or.inr ⟨hb.symm, _, hres.symm, ?_, ?_⟩
    · simp [sentOf]
    · simp [histOf, hhist]
  | some r =>
    cases hsm : objOrEmpty r.session_metadata with
    | none =>
      simp only [save_lead, h1, if_false, hnud, hcust, hhist, hsm,
        Prod.mk.injEq] at hsave
      exact Or.inl ⟨hsave.1.symm, hsave.2.symm⟩
    | some rSm =>
    cases hdm : sm_data_of data with
    | none =>
      simp only [save_lead, h1, if_false, hnud, hcust, hhist, hsm, hdm,
        Prod.mk.injEq] at hsave
      exact Or.inl ⟨hsave.1.symm, hsave.2.symm⟩
    | some dSm =>
    cases hck : cookies_base_of (enc_cookies_of encv data) r with
    | none =>
      simp only [save_lead, h1, if_false, hnud, hcust, hhist, hsm, hdm, hck,
        Prod.mk.injEq] at hsave
      exact Or.inl ⟨hsave.1.symm, hsave.2.symm⟩
    | some rCk =>
      simp only [save_lead, h1, if_false, hnud, hcust, hhist, hsm, hdm, hck,
        Prod.mk.injEq] at hsave
      obtain ⟨hb, hres⟩ := hsave
      refine Or.inr ⟨hb.symm, _, hres.symm, ?_, ?_⟩
      · cases hes : er_success er <;> simp [hes, sentOf]
      · simp [histOf]

-- ==========================================================================
-- C3
-- ==========================================================================

/-- C3 amended: an update of an existing row merges `user_data` and
`custom_data` per top-level key — last-writer-wins per key, keys absent
from the *effective* update preserved — where the effective updates are
the call's `user_data` (or `{"telegram_id": …}` when falsy) and the call's
`custom_data` *augmented with a freshly recomputed `priority_score` key*;
a truthy event record is appended to the history without removing existing
entries; and `sent` is monotonic: set (with `last_sent_at`) exactly when
the triggering record's status is `"success"`, never cleared. -/
theorem save_lead_update_merge (encv : PyVal → PyVal) (now : Int)
    (iso : String) (data : PyVal) (er : Option PyVal) (r r' : LeadRecord)
    (h : save_lead encv now iso data er (some r) = (true, some r')) :
    (∀ k, dlookup k r'.user_data =
      ofirst
        (dlookup k ((normalized_ud_of data
          (pyStr (pyGetV data "telegram_id"))).getD []))
        (dlookup k r.user_data)) ∧
    (∀ k, dlookup k r'.custom_data =
      ofirst
        (dlookup k ((custom_with_score data
          (pyStr (pyGetV data "telegram_id"))).getD []))
        (dlookup k r.custom_data)) ∧
    r'.event_history = r.event_history ++ (history_add er iso).getD [] ∧
    r'.sent = (r.sent || er_success er) ∧
    (er_success er = true → r'.sent = true ∧ r'.last_sent_at = some now) ∧
    (er_success er = false → r'.last_sent_at = r.last_sent_at ∧
      r'.sent = r.sent) := by
  by_cases h1 : truthy (pyGetV data "event_key") = false ∨
      pyStr (pyGetV data "telegram_id") = ""
  · simp [save_lead, h1] at h
  cases hnud : normalized_ud_of data (pyStr (pyGetV data "telegram_id")) with
  | none => simp [save_lead, h1, hnud] at h
  | some nud =>
  cases hcust : custom_with_score data (pyStr (pyGetV data "telegram_id")) with
  | none => simp [save_lead, h1, hnud, hcust] at h
  | some cust =>
  cases hhist : history_add er iso with
  | none => simp [save_lead, h1, hnud, hcust, hhist] at h
  | some hist =>
  cases hsm : objOrEmpty r.session_metadata with
  | none => simp [save_lead, h1, hnud, hcust, hhist, hsm] at h
  | some rSm =>
  cases hdm : sm_data_of data with
  | none => simp [save_lead, h1, hnud, hcust, hhist, hsm, hdm] at h
  | some dSm =>
  cases hck : cookies_base_of (enc_cookies_of encv data) r with
  | none => simp [save_lead, h1, hnud, hcust, hhist, hsm, hdm, hck] at h
  | some rCk =>
    simp only [save_lead, h1, if_false, hnud, hcust, hhist, hsm, hdm, hck,
      Prod.mk.injEq] at h
    obtain ⟨-, hres⟩ := h
    injection hres with hrec
    subst hrec
    refine ⟨?_, ?_, ?_, ?_, ?_, ?_⟩
    · intro k
      simp only [hnud, Option.getD_some]
      exact dlookup_dmerge k r.user_data nud
    · intro k
      simp only [hcust, Option.getD_some]
      exact dlookup_dmerge k r.custom_data cust
    · simp [hhist]
    · cases hes : er_success er <;> simp [hes]
    · intro hs
      simp [hs]
    · intro hs
      simp [hs]

/-- Payload of a `save_lead` call carrying no `custom_data` at all. -/
def c3ex_data : PyVal :=
  .obj [("event_key", .str "k1"), ("telegram_id", .str "7")]

/-- An existing row whose `custom_data` holds `priority_score = 3`. -/
def c3ex_rec : LeadRecord :=
  { event_key := .str "k1", telegram_id := "7", event_type := .str "Lead",
    route_key := .null, src_url := .null, value := .null, currency := .null,
    user_data := [("telegram_id", .str "7")],
    custom_data := [("priority_score", .num 3)],
    cookies := .null, device_info := .null, session_metadata := .null,
    sent := false, sent_pixels := [], event_history := [], created_at := 0,
    last_attempt_at := none, last_sent_at := none }

/-- C3 counterexample: a `save_lead` call whose `data` contains *no*
`custom_data` key still overwrites the stored `priority_score` (3 → the
freshly recomputed 0) — a key absent from the update is not preserved. -/
theorem save_lead_priority_score_not_preserved :
    (save_lead (fun v => v) 0 "T" c3ex_data none (some c3ex_rec)).2.map
        (fun r => dlookup "priority_score" r.custom_data) =
      some (some (PyVal.num 0)) ∧
    dlookup "priority_score" c3ex_rec.custom_data = some (PyVal.num 3) ∧
    pyGetV c3ex_data "custom_data" = PyVal.null :=
  ⟨rfl, rfl, rfl⟩

/-- The row produced by the witness call below. -/
def c3wit_data : PyVal :=
  .obj [("event_key", .str "k1"), ("telegram_id", .str "7"),
        ("custom_data", .obj [("a", .num 1)])]

/-- The record produced by applying the witness call to `c3ex_rec`. -/
def c3wit_out : LeadRecord :=
  ((save_lead (fun v => v) 9 "T" c3wit_data none (some c3ex_rec)).2).getD
    c3ex_rec

/-- Witness for the amended C3 theorem at a concrete update call. -/
theorem save_lead_update_merge_witness :
    dlookup "a" c3wit_out.custom_data =
      ofirst
        (dlookup "a" ((custom_with_score c3wit_data
          (pyStr (pyGetV c3wit_data "telegram_id"))).getD []))
        (dlookup "a" c3ex_rec.custom_data) ∧
    c3wit_out.sent = (c3ex_rec.sent || er_success none) :=
  ⟨(save_lead_update_merge (fun v => v) 9 "T" c3wit_data none c3ex_rec
      c3wit_out rfl).2.1 "a",
   (save_lead_update_merge (fun v => v) 9 "T" c3wit_data none c3ex_rec
      c3wit_out rfl).2.2.2.1⟩

-- ==========================================================================
-- C2
-- ==========================================================================

lemma derive_event_values (u : UtilsCfg) (rk : String) (e : String)
    (h : derive_event_from_route u rk = some e) :
    e = "Subscribe" ∨ e = "Lead" := by
  simp only [derive_event_from_route] at h
  split at h
  · exact Or.inl (Option.some.inj h).symm
  · split at h
    · exact Or.inr (Option.some.inj h).symm
    · exact absurd h (by simp)

/-- The event-record dict written by `process_entry` after a failed
delivery: `{"event": …, "entry_id": …, "results": {"status": "failed",
"event": …}, "status": "failed"}`. -/
def failRecordKvs (ev entry_id : String) : List (String × PyVal) :=
  [("event", .str ev), ("entry_id", .str entry_id),
   ("results", .obj [("status", .str "failed"), ("event", .str ev)]),
   ("status", .str "failed")]

/-- The failed event record as a value. -/
def failRecordOf (ev entry_id : String) : PyVal :=
  .obj (failRecordKvs ev entry_id)

lemma er_success_failRecord (ev entry_id : String) :
    er_success (some (failRecordOf ev entry_id)) = false := rfl

lemma history_add_failRecord (ev entry_id : String) (iso : String) :
    history_add (some (failRecordOf ev entry_id)) iso =
      some [hist_entry_of (failRecordKvs ev entry_id) iso] := rfl

/-- C2: when the delivery of a routable entry ends with status `"failed"`
(every sink fails in every attempt), `process_entry` returns
`success = false`, so `_spawn_worker` does not acknowledge the entry (it
remains in the pending-entries list for the reclaimer), exactly one
`save_lead` call is made carrying a `"failed"` event record, and applying
that call to any store state whose row is still unsent leaves `sent`
false while (whenever the write succeeds) appending the `"failed"` history
entry. -/
theorem process_entry_failed_delivery (cfg : Config) (net : Nat → NetEnv)
    (u : UtilsCfg) (retries : Nat) (entry_id : String)
    (kvs : List (String × PyVal)) (ev : String)
    (hk : kvs ≠ [])
    (hroute : derive_event_from_route u (route_of (.obj kvs)) = some ev)
    (hfail : send_event_with_retry cfg net ev kvs retries = .failed) :
    process_entry cfg net u retries entry_id (some (.obj kvs)) =
      ⟨entry_id, false, [(.obj kvs, some (failRecordOf ev entry_id))],
       [(ev, .obj kvs)]⟩ ∧
    worker_acks cfg net u retries entry_id (some (.obj kvs)) = false ∧
    (∀ (encv : PyVal → PyVal) (now : Int) (iso : String)
       (ex : Option LeadRecord) (b : Bool) (res : Option LeadRecord),
      sentOf ex = false →
      save_lead encv now iso (.obj kvs) (some (failRecordOf ev entry_id)) ex
        = (b, res) →
      (∀ r', res = some r' → r'.sent = false) ∧
      (b = true → ∃ r', res = some r' ∧ r'.sent = false ∧
        r'.event_history.getLast? =
          some (hist_entry_of (failRecordKvs ev entry_id) iso))) := by
  have htr : truthy (.obj kvs) = true := by
    cases kvs with
    | nil => exact absurd rfl hk
    | cons a l => rfl
  have hsend : should_send_event (some ev) = true := by
    rcases derive_event_values u (route_of (.obj kvs)) ev hroute with h | h <;>
      subst h <;> decide
  have h1 : process_entry cfg net u retries entry_id (some (.obj kvs)) =
      ⟨entry_id, false, [(.obj kvs, some (failRecordOf ev entry_id))],
       [(ev, .obj kvs)]⟩ := by
    simp [process_entry, htr, hroute, hsend, hfail, failRecordOf,
      failRecordKvs, retry_result_py]
  refine ⟨h1, by simp [worker_acks, h1], ?_⟩
  intro encv now iso ex b res hsent hsave
  rcases save_lead_shape encv now iso (.obj kvs)
      (some (failRecordOf ev entry_id)) ex b res hsave with
    ⟨hb, hres⟩ | ⟨hb, r2, hres, hsent2, hhist2⟩
  · constructor
    · intro r' hr'
      rw [hres] at hr'
      cases ex with
      | none => exact absurd hr' (by simp)
      | some r =>
        have hrr : r = r' := Option.some.inj hr'
        subst hrr
        simpa [sentOf] using hsent
    · intro hcontra
      rw [hb] at hcontra
      exact absurd hcontra (by simp)
  · subst hres
    have hsfalse : r2.sent = false := by
      rw [hsent2, hsent, er_success_failRecord]
      rfl
    constructor
    · intro r' hr'
      have : r2 = r' := Option.some.inj hr'
      subst this
      exact hsfalse
    · intro _
      refine ⟨r2, rfl, hsfalse, ?_⟩
      rw [hhist2, history_add_failRecord]
      simp [List.getLast?_concat]

/-- The payload of the C2 witness entry. -/
def c2kvs : List (String × PyVal) :=
  [("route_key", .str "botb"), ("event_key", .str "k1"),
   ("telegram_id", .str "7")]

/-- Witness for C2: with no sink credentials every attempt fails, the
entry is not acknowledged and the `"failed"` record is produced. -/
theorem process_entry_failed_delivery_witness :
    process_entry cfg0 net0 u0 2 "1-3" (some (.obj c2kvs)) =
      ⟨"1-3", false, [(.obj c2kvs, some (failRecordOf "Lead" "1-3"))],
       [("Lead", .obj c2kvs)]⟩ ∧
    worker_acks cfg0 net0 u0 2 "1-3" (some (.obj c2kvs)) = false :=
  ⟨(process_entry_failed_delivery cfg0 net0 u0 2 "1-3" c2kvs "Lead"
      (by simp [c2kvs]) (by decide) rfl).1,
   (process_entry_failed_delivery cfg0 net0 u0 2 "1-3" c2kvs "Lead"
      (by simp [c2kvs]) (by decide) rfl).2.1⟩

-- ==========================================================================
-- Injectivity of the decimal rendering (for the event-time component)
-- ==========================================================================

lemma digitChar_ne_minus (d : Nat) : Nat.digitChar d ≠ '-' := by
  by_cases h16 : d < 16
  · interval_cases d <;> decide
  · have hstar : Nat.digitChar d = '*' := by
      unfold Nat.digitChar
      rw [if_neg (by omega : ¬ d = 0), if_neg (by omega : ¬ d = 1), if_neg (by omega : ¬ d = 2), if_neg (by omega : ¬ d = 3), if_neg (by omega : ¬ d = 4), if_neg (by omega : ¬ d = 5), if_neg (by omega : ¬ d = 6), if_neg (by omega : ¬ d = 7), if_neg (by omega : ¬ d = 8), if_neg (by omega : ¬ d = 9), if_neg (by omega : ¬ d = 10), if_neg (by omega : ¬ d = 11), if_neg (by omega : ¬ d = 12), if_neg (by omega : ¬ d = 13), if_neg (by omega : ¬ d = 14), if_neg (by omega : ¬ d = 15)]
    rw [hstar]
    decide

lemma digitChar_inj_lt10 (a b : Nat) (ha : a < 10) (hb : b < 10)
    (h : Nat.digitChar a = Nat.digitChar b) : a = b := by
  interval_cases a <;> interval_cases b <;> revert h <;> decide

lemma map_digitChar_inj : ∀ (l1 l2 : List Nat), (∀ x ∈ l1, x < 10) →
    (∀ x ∈ l2, x < 10) →
    l1.map Nat.digitChar = l2.map Nat.digitChar → l1 = l2 := by
  intro l1
  induction l1 with
  | nil =>
    intro l2 _ _ h
    cases l2 with
    | nil => rfl
    | cons b t => simp at h
  | cons a t ih =>
    intro l2 h1 h2 h
    cases l2 with
    | nil => simp at h
    | cons b t2 =>
      simp only [List.map_cons, List.cons.injEq] at h
      have hab : a = b :=
        digitChar_inj_lt10 a b (h1 a (by simp)) (h2 b (by simp)) h.1
      rw [hab,
        ih t2 (fun x hx => h1 x (by simp [hx]))
          (fun x hx => h2 x (by simp [hx])) h.2]

lemma toDigitsCore_eq_digits (b : Nat) (hb : 1 < b) :
    ∀ (f n : Nat) (acc : List Char), 0 < n → n < b ^ f →
    Nat.toDigitsCore b f n acc =
      ((Nat.digits b n).map Nat.digitChar).reverse ++ acc := by
  intro f
  induction f with
  | zero =>
    intro n acc hn hlt
    simp at hlt
    omega
  | succ m ih =>
    intro n acc hn hlt
    by_cases hdiv : n / b = 0
    · simp only [Nat.toDigitsCore, hdiv, if_true]
      rw [Nat.digits_def' hb hn, hdiv, Nat.digits_zero]
      simp
    · have hpos : 0 < n / b := Nat.pos_of_ne_zero hdiv
      have hlt2 : n / b < b ^ m := by
        rw [Nat.div_lt_iff_lt_mul (by omega : 0 < b)]
        calc n < b ^ (m + 1) := hlt
          _ = b ^ m * b := by rw [pow_succ]
      simp only [Nat.toDigitsCore, hdiv, if_false]
      rw [ih (n / b) _ hpos hlt2, Nat.digits_def' hb hn]
      simp [List.reverse_cons, List.append_assoc]

lemma nat_repr_eq_digits (n : Nat) (hn : 0 < n) :
    Nat.repr n = ⟨((Nat.digits 10 n).map Nat.digitChar).reverse⟩ := by
  have hlt : n < 10 ^ (n + 1) := by
    have h1 : n < 10 ^ n := Nat.lt_pow_self (by norm_num) n
    have h2 : 10 ^ n ≤ 10 ^ (n + 1) :=
      Nat.pow_le_pow_right (by norm_num) (Nat.le_succ n)
    omega
  unfold Nat.repr Nat.toDigits List.asString
  rw [toDigitsCore_eq_digits 10 (by norm_num) (n + 1) n [] hn hlt]
  simp

lemma nat_repr_chars (k : Nat) : ∀ c ∈ (Nat.repr k).data, c ≠ '-' := by
  intro c hc
  rcases Nat.eq_zero_or_pos k with h0 | hpos
  · subst h0
    simp only [show (Nat.repr 0).data = ['0'] from rfl, List.mem_singleton]
      at hc
    subst hc
    decide
  · rw [nat_repr_eq_digits k hpos] at hc
    have hc2 : c ∈ ((Nat.digits 10 k).map Nat.digitChar).reverse := hc
    simp only [List.mem_reverse, List.mem_map] at hc2
    obtain ⟨d, _, hcd⟩ := hc2
    rw [← hcd]
    exact digitChar_ne_minus d

lemma nat_repr_injective (m n : Nat) (h : Nat.repr m = Nat.repr n) :
    m = n := by
  rcases Nat.eq_zero_or_pos m with hm | hm <;>
    rcases Nat.eq_zero_or_pos n with hn | hn
  · omega
  · exfalso
    subst hm
    rw [nat_repr_eq_digits n hn] at h
    have hd : (['0'] : List Char) =
        ((Nat.digits 10 n).map Nat.digitChar).reverse :=
      congrArg String.data h
    have hmap : (Nat.digits 10 n).map Nat.digitChar = ['0'] := by
      have := congrArg List.reverse hd
      simpa using this.symm
    cases hl : Nat.digits 10 n with
    | nil => rw [hl] at hmap; simp at hmap
    | cons d t =>
      rw [hl] at hmap
      simp only [List.map_cons, List.cons.injEq] at hmap
      have ht : t = [] := by
        have := hmap.2
        cases t with
        | nil => rfl
        | cons x xs => simp at this
      have hd10 : d < 10 :=
        Nat.digits_lt_base (by norm_num) (hl ▸ List.mem_cons_self d t)
      have hd0 : d = 0 :=
        digitChar_inj_lt10 d 0 hd10 (by norm_num) (by rw [hmap.1]; rfl)
      have hdig : Nat.digits 10 n = [0] := by rw [hl, ht, hd0]
      have hne := Nat.getLast_digit_ne_zero 10 (by omega : n ≠ 0)
      apply hne
      simp [hdig]
  · exfalso
    subst hn
    rw [nat_repr_eq_digits m hm] at h
    have hd : (((Nat.digits 10 m).map Nat.digitChar).reverse : List Char) =
        ['0'] := congrArg String.data h
    have hmap : (Nat.digits 10 m).map Nat.digitChar = ['0'] := by
      have := congrArg List.reverse hd
      simpa using this
    cases hl : Nat.digits 10 m with
    | nil => rw [hl] at hmap; simp at hmap
    | cons d t =>
      rw [hl] at hmap
      simp only [List.map_cons, List.cons.injEq] at hmap
      have ht : t = [] := by
        have := hmap.2
        cases t with
        | nil => rfl
        | cons x xs => simp at this
      have hd10 : d < 10 :=
        Nat.digits_lt_base (by norm_num) (hl ▸ List.mem_cons_self d t)
      have hd0 : d = 0 :=
        digitChar_inj_lt10 d 0 hd10 (by norm_num) (by rw [hmap.1]; rfl)
      have hdig : Nat.digits 10 m = [0] := by rw [hl, ht, hd0]
      have hne := Nat.getLast_digit_ne_zero 10 (by omega : m ≠ 0)
      apply hne
      simp [hdig]
  · rw [nat_repr_eq_digits m hm, nat_repr_eq_digits n hn] at h
    have hd : ((Nat.digits 10 m).map Nat.digitChar).reverse =
        ((Nat.digits 10 n).map Nat.digitChar).reverse :=
      congrArg String.data h
    have hmap := List.reverse_injective hd
    have hdig := map_digitChar_inj _ _
      (fun x hx => Nat.digits_lt_base (by norm_num) hx)
      (fun x hx => Nat.digits_lt_base (by norm_num) hx) hmap
    exact Nat.digits_inj_iff.mp hdig

lemma int_repr_injective (a b : Int) (h : Int.repr a = Int.repr b) :
    a = b := by
  cases a with
  | ofNat m =>
    cases b with
    | ofNat n =>
      have h2 : Nat.repr m = Nat.repr n := h
      rw [nat_repr_injective m n h2]
    | negSucc n =>
      exfalso
      have hd := congrArg String.data h
      simp only [Int.repr, String.data_append] at hd
      have hmem : '-' ∈ (Nat.repr m).data := by
        rw [hd]
        exact List.mem_cons_self _ _
      exact nat_repr_chars m '-' hmem rfl
  | negSucc m =>
    cases b with
    | ofNat n =>
      exfalso
      have hd := congrArg String.data h
      simp only [Int.repr, String.data_append] at hd
      have hmem : '-' ∈ (Nat.repr n).data := by
        rw [← hd]
        exact List.mem_cons_self _ _
      exact nat_repr_chars n '-' hmem rfl
    | negSucc n =>
      have h2 : Nat.repr (m + 1) = Nat.repr (n + 1) :=
        str_append_cancel_left h
      have := nat_repr_injective _ _ h2
      have hmn : m = n := by omega
      rw [hmn]

-- ==========================================================================
-- C7
-- ==========================================================================

/-- C7 amended: `build_event_id` is deterministic — inputs equal after the
source's normalization (strip + lowercase per identity field) yield the
identical hash for every digest function — and it is sensitive exactly at
the level of the digest input: changing the *normalized* value of any
single identity field, of the event name, or of the event time changes the
hashed preimage string (the digest itself may only collide as `sha256`
collides; a non-normalized change such as letter case does not change the
hash at all, see the counterexample). -/
theorem build_event_id_determinism_and_sensitivity :
    (∀ (sha : String → String) (salt ev ev2 : String)
       (lead lead2 : List (String × PyVal)) (t t2 : Int),
      normStr ev = normStr ev2 →
      (∀ k ∈ idFieldKeys, idField lead k = idField lead2 k) →
      t = t2 →
      build_event_id sha salt ev lead t =
        build_event_id sha salt ev2 lead2 t2) ∧
    (∀ (salt ev : String) (lead lead2 : List (String × PyVal)) (t : Int)
       (k : String), k ∈ idFieldKeys →
      (∀ k2 ∈ idFieldKeys, k2 ≠ k → idField lead k2 = idField lead2 k2) →
      idField lead k ≠ idField lead2 k →
      build_event_id_pre salt ev lead t ≠
        build_event_id_pre salt ev lead2 t) ∧
    (∀ (salt ev ev2 : String) (lead : List (String × PyVal)) (t : Int),
      normStr ev ≠ normStr ev2 →
      build_event_id_pre salt ev lead t ≠
        build_event_id_pre salt ev2 lead t) ∧
    (∀ (salt ev : String) (lead : List (String × PyVal)) (t t2 : Int),
      t ≠ t2 →
      build_event_id_pre salt ev lead t ≠
        build_event_id_pre salt ev lead t2) := by
  refine ⟨?_, ?_, ?_, ?_⟩
  · intro sha salt ev ev2 lead lead2 t t2 hev hf ht
    unfold build_event_id build_event_id_pre event_id_keys
    rw [hev, ht, hf "telegram_id" (by simp [idFieldKeys]),
      hf "external_id" (by simp [idFieldKeys]),
      hf "click_id" (by simp [idFieldKeys]),
      hf "fbp" (by simp [idFieldKeys]),
      hf "fbc" (by simp [idFieldKeys]),
      hf "gclid" (by simp [idFieldKeys]),
      hf "gbraid" (by simp [idFieldKeys]),
      hf "wbraid" (by simp [idFieldKeys])]
  · intro salt ev lead lead2 t k hk hoth hne
    simp only [idFieldKeys, List.mem_cons, List.mem_singleton,
      List.not_mem_nil, or_false] at hk
    rcases hk with rfl | rfl | rfl | rfl | rfl | rfl | rfl | rfl
    · unfold build_event_id_pre event_id_keys
      rw [hoth "external_id" (by simp [idFieldKeys]) (by decide),
        hoth "click_id" (by simp [idFieldKeys]) (by decide),
        hoth "fbp" (by simp [idFieldKeys]) (by decide),
        hoth "fbc" (by simp [idFieldKeys]) (by decide),
        hoth "gclid" (by simp [idFieldKeys]) (by decide),
        hoth "gbraid" (by simp [idFieldKeys]) (by decide),
        hoth "wbraid" (by simp [idFieldKeys]) (by decide)]
      exact pyJoin_single_diff
        [normStr ev]
        (idField lead "telegram_id") (idField lead2 "telegram_id")
        [idField lead2 "external_id", idField lead2 "click_id", idField lead2 "fbp", idField lead2 "fbc", idField lead2 "gclid", idField lead2 "gbraid", idField lead2 "wbraid", Int.repr t, salt] hne
    · unfold build_event_id_pre event_id_keys
      rw [hoth "telegram_id" (by simp [idFieldKeys]) (by decide),
        hoth "click_id" (by simp [idFieldKeys]) (by decide),
        hoth "fbp" (by simp [idFieldKeys]) (by decide),
        hoth "fbc" (by simp [idFieldKeys]) (by decide),
        hoth "gclid" (by simp [idFieldKeys]) (by decide),
        hoth "gbraid" (by simp [idFieldKeys]) (by decide),
        hoth "wbraid" (by simp [idFieldKeys]) (by decide)]
      exact pyJoin_single_diff
        [normStr ev, idField lead2 "telegram_id"]
        (idField lead "external_id") (idField lead2 "external_id")
        [idField lead2 "click_id", idField lead2 "fbp", idField lead2 "fbc", idField lead2 "gclid", idField lead2 "gbraid", idField lead2 "wbraid", Int.repr t, salt] hne
    · unfold build_event_id_pre event_id_keys
      rw [hoth "telegram_id" (by simp [idFieldKeys]) (by decide),
        hoth "external_id" (by simp [idFieldKeys]) (by decide),
        hoth "fbp" (by simp [idFieldKeys]) (by decide),
        hoth "fbc" (by simp [idFieldKeys]) (by decide),
        hoth "gclid" (by simp [idFieldKeys]) (by decide),
        hoth "gbraid" (by simp [idFieldKeys]) (by decide),
        hoth "wbraid" (by simp [idFieldKeys]) (by decide)]
      exact pyJoin_single_diff
        [normStr ev, idField lead2 "telegram_id", idField lead2 "external_id"]
        (idField lead "click_id") (idField lead2 "click_id")
        [idField lead2 "fbp", idField lead2 "fbc", idField lead2 "gclid", idField lead2 "gbraid", idField lead2 "wbraid", Int.repr t, salt] hne
    · unfold build_event_id_pre event_id_keys
      rw [hoth "telegram_id" (by simp [idFieldKeys]) (by decide),
        hoth "external_id" (by simp [idFieldKeys]) (by decide),
        hoth "click_id" (by simp [idFieldKeys]) (by decide),
        hoth "fbc" (by simp [idFieldKeys]) (by decide),
        hoth "gclid" (by simp [idFieldKeys]) (by decide),
        hoth "gbraid" (by simp [idFieldKeys]) (by decide),
        hoth "wbraid" (by simp [idFieldKeys]) (by decide)]
      exact pyJoin_single_diff
        [normStr ev, idField lead2 "telegram_id", idField lead2 "external_id", idField lead2 "click_id"]
        (idField lead "fbp") (idField lead2 "fbp")
        [idField lead2 "fbc", idField lead2 "gclid", idField lead2 "gbraid", idField lead2 "wbraid", Int.repr t, salt] hne
    · unfold build_event_id_pre event_id_keys
      rw [hoth "telegram_id" (by simp [idFieldKeys]) (by decide),
        hoth "external_id" (by simp [idFieldKeys]) (by decide),
        hoth "click_id" (by simp [idFieldKeys]) (by decide),
        hoth "fbp" (by simp [idFieldKeys]) (by decide),
        hoth "gclid" (by simp [idFieldKeys]) (by decide),
        hoth "gbraid" (by simp [idFieldKeys]) (by decide),
        hoth "wbraid" (by simp [idFieldKeys]) (by decide)]
      exact pyJoin_single_diff
        [normStr ev, idField lead2 "telegram_id", idField lead2 "external_id", idField lead2 "click_id", idField lead2 "fbp"]
        (idField lead "fbc") (idField lead2 "fbc")
        [idField lead2 "gclid", idField lead2 "gbraid", idField lead2 "wbraid", Int.repr t, salt] hne
    · unfold build_event_id_pre event_id_keys
      rw [hoth "telegram_id" (by simp [idFieldKeys]) (by decide),
        hoth "external_id" (by simp [idFieldKeys]) (by decide),
        hoth "click_id" (by simp [idFieldKeys]) (by decide),
        hoth "fbp" (by simp [idFieldKeys]) (by decide),
        hoth "fbc" (by simp [idFieldKeys]) (by decide),
        hoth "gbraid" (by simp [idFieldKeys]) (by decide),
        hoth "wbraid" (by simp [idFieldKeys]) (by decide)]
      exact pyJoin_single_diff
        [normStr ev, idField lead2 "telegram_id", idField lead2 "external_id", idField lead2 "click_id", idField lead2 "fbp", idField lead2 "fbc"]
        (idField lead "gclid") (idField lead2 "gclid")
        [idField lead2 "gbraid", idField lead2 "wbraid", Int.repr t, salt] hne
    · unfold build_event_id_pre event_id_keys
      rw [hoth "telegram_id" (by simp [idFieldKeys]) (by decide),
        hoth "external_id" (by simp [idFieldKeys]) (by decide),
        hoth "click_id" (by simp [idFieldKeys]) (by decide),
        hoth "fbp" (by simp [idFieldKeys]) (by decide),
        hoth "fbc" (by simp [idFieldKeys]) (by decide),
        hoth "gclid" (by simp [idFieldKeys]) (by decide),
        hoth "wbraid" (by simp [idFieldKeys]) (by decide)]
      exact pyJoin_single_diff
        [normStr ev, idField lead2 "telegram_id", idField lead2 "external_id", idField lead2 "click_id", idField lead2 "fbp", idField lead2 "fbc", idField lead2 "gclid"]
        (idField lead "gbraid") (idField lead2 "gbraid")
        [idField lead2 "wbraid", Int.repr t, salt] hne
    · unfold build_event_id_pre event_id_keys
      rw [hoth "telegram_id" (by simp [idFieldKeys]) (by decide),
        hoth "external_id" (by simp [idFieldKeys]) (by decide),
        hoth "click_id" (by simp [idFieldKeys]) (by decide),
        hoth "fbp" (by simp [idFieldKeys]) (by decide),
        hoth "fbc" (by simp [idFieldKeys]) (by decide),
        hoth "gclid" (by simp [idFieldKeys]) (by decide),
        hoth "gbraid" (by simp [idFieldKeys]) (by decide)]
      exact pyJoin_single_diff
        [normStr ev, idField lead2 "telegram_id", idField lead2 "external_id", idField lead2 "click_id", idField lead2 "fbp", idField lead2 "fbc", idField lead2 "gclid", idField lead2 "gbraid"]
        (idField lead "wbraid") (idField lead2 "wbraid")
        [Int.repr t, salt] hne
  · intro salt ev ev2 lead t hne
    unfold build_event_id_pre event_id_keys
    exact pyJoin_single_diff [] (normStr ev) (normStr ev2)
      [idField lead "telegram_id", idField lead "external_id", idField lead "click_id", idField lead "fbp", idField lead "fbc", idField lead "gclid", idField lead "gbraid", idField lead "wbraid", Int.repr t, salt] hne
  · intro salt ev lead t t2 ht
    have hr : Int.repr t ≠ Int.repr t2 :=
      fun hh => ht (int_repr_injective t t2 hh)
    unfold build_event_id_pre event_id_keys
    exact pyJoin_single_diff
      [normStr ev, idField lead "telegram_id", idField lead "external_id", idField lead "click_id", idField lead "fbp", idField lead "fbc", idField lead "gclid", idField lead "gbraid", idField lead "wbraid"]
      (Int.repr t) (Int.repr t2) [salt] hr

/-- A lead identified by upper-case "ABC". -/
def c7leadA : List (String × PyVal) := [("telegram_id", .str "ABC")]

/-- The same lead with the user id in lower case. -/
def c7leadB : List (String × PyVal) := [("telegram_id", .str "abc")]

/-- C7 counterexample: two leads that differ in an identity field (user id
"ABC" vs "abc") produce the *identical* digest input, hence the identical
hash for the real digest as well — changing an identity field does not
always change the hash (normalization folds case). -/
theorem build_event_id_case_insensitive_collision :
    build_event_id_pre "salt0" "Lead" c7leadA 100 =
      build_event_id_pre "salt0" "Lead" c7leadB 100 ∧
    c7leadA ≠ c7leadB := by
  constructor
  · rfl
  · intro h
    have h2 := congrArg (fun l => dlookup "telegram_id" l) h
    simp only [c7leadA, c7leadB, dlookup, if_pos rfl] at h2
    injection h2 with h3
    injection h3 with h4
    exact absurd h4 (by decide)

/-- Witness for the amended C7 theorem: changing the normalized `fbp`
cookie changes the digest input. -/
theorem build_event_id_sensitivity_witness :
    build_event_id_pre "s" "Lead" [("fbp", PyVal.str "x")] 5 ≠
      build_event_id_pre "s" "Lead" [("fbp", PyVal.str "y")] 5 :=
  build_event_id_determinism_and_sensitivity.2.1 "s" "Lead"
    [("fbp", PyVal.str "x")] [("fbp", PyVal.str "y")] 5 "fbp"
    (by simp [idFieldKeys])
    (by
      intro k2 hk2 hne
      simp only [idFieldKeys, List.mem_cons, List.mem_singleton,
        List.not_mem_nil, or_false] at hk2
      rcases hk2 with rfl | rfl | rfl | rfl | rfl | rfl | rfl | rfl <;>
        first
          | rfl
          | exact absurd rfl hne)
    (by decide)
